import Mathlib

/-!
Shallow embedding of the Warzone2100/maps-database scripts (the map
validation / normalization / indexing core) and proofs checking the
natural-language specification against it.

Source files embedded:
  * src/scripts/funcs/map_funcs.py       (validate_map_info, date conversion, normalizer)
  * src/scripts/funcs/update_map_db.py   (add_to_mapdatabase_index, versions manifest)
  * src/scripts/funcs/process_map_repo.py (release batching, hash-collision check)
  * src/scripts/validate_new_map.py      (map-list validation exit code)

Conventions of the embedding:
  * Python dict lookups that the source performs unconditionally are modelled as
    plain structure fields; keys whose absence the source handles (or whose
    absence a claim exercises) are modelled as `Option` fields, and a lookup of
    an absent key raises `PyErr.keyError`.
  * A Python function that can raise returns `Except PyErr _`.
  * `datetime.now()` is passed in explicitly as a day number (`nowDay`),
    computed by the same civil-calendar day count used for parsed dates.
  * The third-party SPDX license-expression library is an external collaborator;
    its parse-and-semantic-equivalence check is abstracted to membership of the
    license string in the six canonical expected expressions (both failure
    branches of the source append an error, so claims only depend on the
    valid/invalid split).
  * Regular-expression digits are modelled as ASCII digits.
  * Finding messages keep the distinguishing text of the source messages, with
    quotes/punctuation simplified (no claim depends on exact message text).
-/

/-- Python exceptions that the embedded code can raise. -/
inductive PyErr where
  | keyError
  | typeError
  | valueError
  deriving DecidableEq, Repr

/-! ## Date handling (map_funcs.py: DATE_FORMAT_RE, datetime) -/

/-- Leap year rule of the proleptic Gregorian calendar (Python `datetime`). -/
def isLeapYear (y : Nat) : Bool :=
  y % 4 == 0 && (y % 100 != 0 || y % 400 == 0)

/-- Days in a month, as enforced by the Python `datetime` constructor. -/
def daysInMonth (y m : Nat) : Nat :=
  if m == 2 then (if isLeapYear y then 29 else 28)
  else if m == 4 || m == 6 || m == 9 || m == 11 then 30
  else 31

/-- Whether `datetime(y, m, d)` succeeds (month is 1..12 by construction of the
regex; the constructor additionally requires year in 1..9999 and a valid day). -/
def isValidDate (y m d : Nat) : Bool :=
  1 ≤ y && y ≤ 9999 && 1 ≤ m && m ≤ 12 && 1 ≤ d && d ≤ daysInMonth y m

/-- Day number of a civil date (days since 0000-03-01); differences of this
count equal differences of Python `datetime` values in whole days. -/
def daysFromCivil (year m d : Nat) : Nat :=
  let y := if m ≤ 2 then year - 1 else year
  let era := y / 400
  let yoe := y % 400
  let mp := (m + 9) % 12
  let doy := (153 * mp + 2) / 5 + (d - 1)
  let doe := yoe * 365 + yoe / 4 - yoe / 100 + doy
  era * 146097 + doe

/-- Two-character month group of DATE_FORMAT_RE: `(0[1-9])|(1[0-2])`. -/
def monthChars (c1 c2 : Char) : Bool :=
  (c1 == '0' && '1' ≤ c2 && c2 ≤ '9') || (c1 == '1' && '0' ≤ c2 && c2 ≤ '2')

/-- Two-character day group of DATE_FORMAT_RE: `0[1-9]|[1-2][0-9]|3[0-1]`. -/
def dayChars (c1 c2 : Char) : Bool :=
  (c1 == '0' && '1' ≤ c2 && c2 ≤ '9') ||
  ((c1 == '1' || c1 == '2') && c2.isDigit) ||
  (c1 == '3' && (c2 == '0' || c2 == '1'))

/-- `DATE_FORMAT_RE.match`: the pattern
`^(?P<year>\d{3}\d+)-(?P<month>(0[1-9])|(1[0-2]))-(?P<day>0[1-9]|[1-2][0-9]|3[0-1])( HH:MM:SS)?`
is not end-anchored and its trailing time group is optional, so a match
succeeds exactly when the string starts with at least four digits (the maximal
leading digit run, since the next character must be a dash), a dash, a valid
month pair, a dash, and a valid day pair; the returned groups are those three
substrings. -/
def dateFormatMatch (s : List Char) : Option (List Char × List Char × List Char) :=
  let year := s.takeWhile Char.isDigit
  let rest := s.dropWhile Char.isDigit
  if year.length < 4 then none
  else
    match rest with
    | '-' :: m1 :: m2 :: '-' :: d1 :: d2 :: _ =>
        if monthChars m1 m2 && dayChars d1 d2 then some (year, [m1, m2], [d1, d2])
        else none
    | _ => none

/-- Numeric value of a digit string (Python `int(...)` on the regex groups). -/
def digitsToNat (cs : List Char) : Nat :=
  cs.foldl (fun acc c => acc * 10 + (c.toNat - '0'.toNat)) 0

/-- map_funcs.py `convert_map_info_date_to_yyyy_mm_dd`: re-match the date
pattern; on failure raise ValueError; on success return the year, month and day
groups joined by dashes. -/
def convert_map_info_date_to_yyyy_mm_dd (map_info_date : String) : Except PyErr String :=
  match dateFormatMatch map_info_date.toList with
  | none => .error .valueError
  | some (y, m, d) => .ok (⟨y⟩ ++ "-" ++ ⟨m⟩ ++ "-" ++ ⟨d⟩)


/-! ## Data model: MapInfo (map_funcs.py) -/

/-- One author entry (a dict whose `name` key may be absent). -/
structure AuthorInfo where
  name : Option String
  deriving DecidableEq, Repr

/-- `mapsize` sub-dict. -/
structure MapSize where
  w : Int
  h : Int
  deriving DecidableEq, Repr

/-- A per-player min/max counter from the `player` sub-dict. -/
structure CountRange where
  min : Int
  max : Int
  deriving DecidableEq, Repr

/-- The `player` sub-dict of per-player structure/unit counters. -/
structure PlayerCounts where
  units : CountRange
  structures : CountRange
  resourceExtractors : CountRange
  powerGenerators : CountRange
  regFactories : CountRange
  vtolFactories : CountRange
  cyborgFactories : CountRange
  researchCenters : CountRange
  defenseStructures : CountRange
  deriving DecidableEq, Repr

/-- One `hq` array entry: a dict whose `x` / `y` keys may be absent. -/
structure HQEntry where
  x : Option Int
  y : Option Int
  deriving DecidableEq, Repr

/-- `scavenger` sub-dict (used by the normalizer). -/
structure ScavengerInfo where
  units : Int
  structures : Int
  deriving DecidableEq, Repr

/-- `balance.startEquality` sub-dict of equality flags (used by the normalizer). -/
structure StartEquality where
  units : Bool
  structures : Bool
  resourceExtractors : Bool
  powerGenerators : Bool
  regFactories : Bool
  vtolFactories : Bool
  cyborgFactories : Bool
  researchCenters : Bool
  defenseStructures : Bool
  deriving DecidableEq, Repr

/-- The MapInfo document (output of the external inspection tool). Keys whose
absence the source handles — or whose absence a claim exercises (`name`,
`hq`) — are `Option`; the remaining keys are accessed unconditionally by the
source and are modelled as plain fields. -/
structure MapInfo where
  name : Option String
  type : String
  players : Int
  tileset : String
  license : Option String
  author : Option AuthorInfo
  additionalAuthors : Option (List AuthorInfo)
  created : Option String
  mapsize : MapSize
  oilWells : Int
  player : PlayerCounts
  hq : Option (List HQEntry)
  mapMod : Bool
  modTypes : Option (List String)
  levelFormat : String
  mapFormat : String
  flatMapPackage : Bool
  scavenger : ScavengerInfo
  balance_startEquality : StartEquality
  deriving DecidableEq, Repr

/-! ## Metadata Validator (map_funcs.py: validate_map_info) -/

/-- The validator result (class MapInfoValidationResult). -/
structure MapInfoValidationResult where
  warnings : List String
  errors : List String
  errors_non_fatal : List String
  passedFormatChecks : Bool
  deriving DecidableEq, Repr

/-- Warning-suppression configuration (class ValidateMapWarningOptions); every
flag defaults to `true` as in the source constructor. Note there is no flag
covering the HQ-coverage warnings. -/
structure ValidateMapWarningOptions where
  short_name_warning : Bool := true
  missing_created_date_warning : Bool := true
  zero_oil_warning : Bool := true
  player_structure_zero_warnings : Bool := true
  mods_texture_overrides_warning : Bool := true
  mods_auto_strip_warning : Bool := true
  mods_no_modtypes_warning : Bool := true
  format_warnings : Bool := true
  deriving DecidableEq, Repr

/-- The six preapproved license expressions (expected_license_expressions). -/
def expected_license_expressions : List String :=
  ["CC0-1.0",
   "GPL-2.0-or-later",
   "CC-BY-3.0 OR GPL-2.0-or-later",
   "CC-BY-SA-3.0 OR GPL-2.0-or-later",
   "CC-BY-4.0 OR GPL-2.0-or-later",
   "CC-BY-SA-4.0 OR GPL-2.0-or-later"]

/-- NAME_FORMAT_RE: `^[A-Za-z0-9\-_]+$`. -/
def nameFormatOk (s : String) : Bool :=
  s.length > 0 && s.toList.all (fun c => c.isAlphanum || c == '-' || c == '_')

/-- The HQ warning text for player index `i` (message of lines 160/162). -/
def hqWarnString (i : Nat) : String :=
  "player " ++ Nat.repr i ++ " has no HQ - did you forget to add an HQ / command center?"

/-- Whether the loop body warns for index `i`: the slot dict lacks `x` or `y`,
or indexing past the end of the array raises IndexError, which the source
catches and turns into the same warning. -/
def hqSlotLacksCoords (l : List HQEntry) (i : Nat) : Bool :=
  match l.get? i with
  | none => true
  | some e => e.x.isNone || e.y.isNone

/-- Python `range(2, n)` for an integer bound `n`, as a list of indices:
the integer interval `[2, n)`. -/
def pyRangeFrom2 (n : Int) : List Nat :=
  List.range' 2 (n.toNat - 2)

/-- The `for i in range(2, max_players)` warning loop of lines 157-162. -/
def hqWarningsLoop (l : List HQEntry) : List Nat → List String
  | [] => []
  | i :: is => (if hqSlotLacksCoords l i then [hqWarnString i] else []) ++ hqWarningsLoop l is

/-- Lines 154-162: `player_hqs = map_info_json['hq']` raises KeyError when the
`hq` key is absent (the try/except inside the loop catches only IndexError and
TypeError from the indexing); otherwise the loop collects one warning per
index in `range(2, players)` whose slot lacks coordinates. No warning option
conditions these warnings. -/
def hq_coverage_check (players : Int) (hq : Option (List HQEntry)) : Except PyErr (List String) :=
  match hq with
  | none => .error .keyError
  | some l => .ok (hqWarningsLoop l (pyRangeFrom2 players))

/-- map_funcs.py lines 50-234, `validate_map_info`. Findings are appended in
source order; a Python raise aborts the run and is returned as `.error`:
  * a missing `name` key raises KeyError at the first access (line 56);
  * an empty `name` is falsy, so every name check is skipped with no finding;
  * a `created` value matching DATE_FORMAT_RE but denoting an invalid calendar
    date makes the `datetime` constructor raise ValueError (line 127);
  * the two findings of lines 130/132 call `errors.append` with two arguments,
    which raises TypeError instead of appending;
  * with `players >= 2`, a missing `hq` key raises KeyError (line 156). -/
def validate_map_info (map_info_json : MapInfo) (nowDay : Nat)
    (enforce_format_checks : Bool := true)
    (warning_options : ValidateMapWarningOptions := {}) :
    Except PyErr MapInfoValidationResult := do
  let mut warnings : List String := []
  let mut errors : List String := []
  let mut errors_non_fatal : List String := []

  -- Must have a name
  let name ← match map_info_json.name with
    | none => throw PyErr.keyError
    | some n => pure n
  if name ≠ "" then
    let name_length := name.length
    if name_length < 6 then
      if warning_options.short_name_warning then
        warnings := warnings ++
          ["name is less than 6 chars - consider using a longer name: (" ++ name ++ ")"]
    if name_length > 60 then
      errors := errors ++ ["name is > 60 chars - use a shorter name: (" ++ name ++ ")"]
    else if name_length > 30 then
      warnings := warnings ++
        ["name is > 30 chars - consider using a shorter name (longer names may be truncated): (" ++ name ++ ")"]
    if ¬ nameFormatOk name then
      errors := errors ++ ["name has unsupported characters: (" ++ name ++ ")"]

  -- Must have a valid type
  if map_info_json.type ∉ ["skirmish"] then
    errors := errors ++ ["type (" ++ map_info_json.type ++ ") is not one of the allowed values: skirmish"]

  -- Must have players (and it must be 2-10, for a skirmish map)
  if ¬ (2 ≤ map_info_json.players ∧ map_info_json.players ≤ 10) then
    errors := errors ++ ["players is not an allowed value"]

  -- Must have tileset
  if map_info_json.tileset ∉ ["arizona", "urban", "rockies"] then
    errors := errors ++ ["tileset (" ++ map_info_json.tileset ++ ") is not one of the allowed values"]

  -- Must have a license (external SPDX library abstracted; see header note)
  let mut has_valid_license : Bool := false
  match map_info_json.license with
  | none => errors := errors ++ ["Missing required license key"]
  | some lic =>
    if lic ∈ expected_license_expressions then
      has_valid_license := true
    else
      errors := errors ++ ["license value (" ++ lic ++ ") is not in the list of expected licenses"]

  -- Must* have an author name (*non-fatal if the license is valid)
  match map_info_json.author with
  | none =>
    match map_info_json.additionalAuthors with
    | some _ => errors := errors ++ ["Missing required author key, but has additionalAuthors"]
    | none =>
      if has_valid_license then
        errors_non_fatal := errors_non_fatal ++ ["Missing author key"]
      else
        errors := errors ++ ["Missing required author key"]
  | some author =>
    match author.name with
    | none => errors := errors ++ ["Missing required name key under author key"]
    | some author_name =>
      if author_name.length == 0 then
        warnings := warnings ++ ["Empty name value under author key"]
      else if author_name.length > 60 then
        errors := errors ++ ["author.name is > 60 chars - use a shorter author name"]

  -- Should have a created date
  match map_info_json.created with
  | some created =>
    match dateFormatMatch created.toList with
    | some (yg, mg, dg) =>
      let y := digitsToNat yg
      let mo := digitsToNat mg
      let d := digitsToNat dg
      if ¬ isValidDate y mo d then
        throw PyErr.valueError
      else if nowDay + 1 < daysFromCivil y mo d then
        -- line 130: errors.append(msg, value) with two arguments
        throw PyErr.typeError
      else if y < 1999 then
        -- line 132: errors.append(msg, value) with two arguments
        throw PyErr.typeError
    | none =>
      errors := errors ++ ["Invalid created date format: " ++ created]
  | none =>
    if warning_options.missing_created_date_warning then
      warnings := warnings ++ ["Missing created date"]

  -- Must have a valid mapsize
  if ¬ (1 ≤ map_info_json.mapsize.w ∧ map_info_json.mapsize.w ≤ 256) then
    errors := errors ++ ["Invalid mapsize.w"]
  if ¬ (1 ≤ map_info_json.mapsize.h ∧ map_info_json.mapsize.h ≤ 256) then
    errors := errors ++ ["Invalid mapsize.h"]

  -- Should have > 0 oil wells and/or resourceExtractors
  if ¬ (map_info_json.oilWells > 0 ∨ map_info_json.player.resourceExtractors.min > 0) then
    if warning_options.zero_oil_warning then
      warnings := warnings ++ ["oilWells is 0 *AND* at least one player has no starting resourceExtractors"]

  -- Should have a command center / HQ for each player
  let max_players := map_info_json.players
  if max_players ≥ 2 then
    let hq_warnings ← hq_coverage_check max_players map_info_json.hq
    warnings := warnings ++ hq_warnings

  -- Check player structure type counts
  let player_counts := map_info_json.player
  if player_counts.powerGenerators.min ≤ 0 then
    if warning_options.player_structure_zero_warnings then
      warnings := warnings ++ ["At least one player has no starting powerGenerators on map?"]
  if player_counts.regFactories.min ≤ 0 ∧ player_counts.vtolFactories.min ≤ 0 ∧
      player_counts.cyborgFactories.min ≤ 0 then
    if warning_options.player_structure_zero_warnings then
      warnings := warnings ++ ["At least one player has no starting *Factories on map?"]
  if player_counts.researchCenters.min ≤ 0 then
    if warning_options.player_structure_zero_warnings then
      warnings := warnings ++ ["At least one player has no starting researchCenters on map?"]

  -- Must have mapmod == false (for now) or auto-strippable mods
  if map_info_json.mapMod = true then
    match map_info_json.modTypes with
    | some modTypes =>
      let mut can_strip_mods : Bool := true
      if "gamemodels" ∈ modTypes ∧ "datasets" ∈ modTypes then
        errors := errors ++ ["Conversion Error: Unable to auto-strip mods"]
        can_strip_mods := false
      if "textures" ∈ modTypes then
        if warning_options.mods_texture_overrides_warning then
          warnings := warnings ++ ["Conversion Warning: Map-mod contains texture overrides"]
      if can_strip_mods = true then
        if warning_options.mods_auto_strip_warning then
          warnings := warnings ++
            ["Conversion Warning: Will auto-strip the following mods (please review): " ++
              String.intercalate "," modTypes]
    | none =>
      if warning_options.mods_no_modtypes_warning then
        warnings := warnings ++ ["Conversion Warning: mapMod is True, but no modTypes array? (Please review!)"]

  let mut passedFormatChecks : Bool := true

  -- Must have a modern level format
  if map_info_json.levelFormat ∉ ["json"] then
    passedFormatChecks := false
    if enforce_format_checks then
      errors := errors ++ ["Map level file format must be modern (json)"]
    else
      if warning_options.format_warnings then
        warnings := warnings ++ ["Map level file format must be modern (json)"]

  -- Must be a modern mapFormat
  if map_info_json.mapFormat ∉ ["script", "jsonv2"] then
    passedFormatChecks := false
    if enforce_format_checks then
      errors := errors ++ ["Map format must be modern (script, jsonv2)"]
    else
      if warning_options.format_warnings then
        warnings := warnings ++ ["Map format must be modern (script, jsonv2)"]

  -- Must be a flatMapPackage
  if ¬ (map_info_json.flatMapPackage = true) then
    passedFormatChecks := false
    if enforce_format_checks then
      errors := errors ++ ["Map must be a flatMapPackage"]
    else
      if warning_options.format_warnings then
        warnings := warnings ++ ["Map must be a flatMapPackage"]

  return { warnings := warnings, errors := errors,
           errors_non_fatal := errors_non_fatal, passedFormatChecks := passedFormatChecks }

/-! ## Metadata Normalizer (map_funcs.py: convert_map_info_json_to_map_database_json) -/

/-- The `author` value of the output record: a single name string, or a list
when `additionalAuthors` is present. -/
inductive AuthorField where
  | single (name : String)
  | list (names : List String)
  deriving DecidableEq, Repr

/-- One renamed balance counter `{eq, min, max}` of the output record. -/
structure BalanceTriple where
  eq : Bool
  min : Int
  max : Int
  deriving DecidableEq, Repr

/-- The renamed per-player balance block of the output record. -/
structure PlayerBalance where
  units : BalanceTriple
  structs : BalanceTriple
  resourceExtr : BalanceTriple
  pwrGen : BalanceTriple
  regFact : BalanceTriple
  vtolFact : BalanceTriple
  cyborgFact : BalanceTriple
  researchCent : BalanceTriple
  defStruct : BalanceTriple
  deriving DecidableEq, Repr

/-- The normalized map-database record (the OrderedDict built by the source;
keys the source only conditionally inserts are `Option`). -/
structure MapDatabaseRecord where
  name : String
  slots : Int
  tileset : String
  author : Option AuthorField
  license : String
  created : Option String
  size : MapSize
  scavs : Int
  oilWells : Int
  player : PlayerBalance
  hq : List (List Int)
  mod : Option Bool
  download_type : String
  deriving DecidableEq, Repr

/-- map_funcs.py lines 244-287, `convert_map_info_json_to_map_database_json`.
The author-list branch reproduces the source faithfully, including the slip at
line 255: `seen_authors = set(map_info_json['author']['name'])` builds a set of
the CHARACTERS of the primary author name (modelled as the list of its
one-character strings), not the singleton set of the name itself; membership
tests then compare full additional-author names against it. -/
def convert_map_info_json_to_map_database_json (map_info_json : MapInfo) :
    Except PyErr MapDatabaseRecord := do
  let name ← match map_info_json.name with
    | none => throw PyErr.keyError
    | some n => pure n
  let author ← match map_info_json.additionalAuthors with
    | none =>
      match map_info_json.author with
      | some a =>
        match a.name with
        | some an => pure (some (AuthorField.single an))
        | none => throw PyErr.keyError
      | none => pure (none : Option AuthorField)
    | some additionalAuthors => do
      let primary ← match map_info_json.author with
        | none => throw PyErr.keyError
        | some a =>
          match a.name with
          | none => throw PyErr.keyError
          | some an => pure an
      let mut author_list : List String := [primary]
      let mut seen_authors : List String := primary.toList.map (fun c => String.mk [c])
      for author in additionalAuthors do
        let author_name ← match author.name with
          | none => throw PyErr.keyError
          | some an => pure an
        if author_name.length > 0 ∧ author_name ∉ seen_authors then
          author_list := author_list ++ [author_name]
          seen_authors := seen_authors ++ [author_name]
      pure (some (AuthorField.list author_list))
  let license ← match map_info_json.license with
    | none => throw PyErr.keyError
    | some l => pure l
  let created ← match map_info_json.created with
    | none => pure (none : Option String)
    | some c => do
      let r ← convert_map_info_date_to_yyyy_mm_dd c
      pure (some r)
  let hqList ← match map_info_json.hq with
    | none => throw PyErr.keyError
    | some l =>
      pure (l.map (fun v =>
        match v.x, v.y with
        | some vx, some vy => [vx, vy]
        | _, _ => ([] : List Int)))
  let se := map_info_json.balance_startEquality
  let pc := map_info_json.player
  return {
    name := name
    slots := map_info_json.players
    tileset := map_info_json.tileset
    author := author
    license := license
    created := created
    size := { w := map_info_json.mapsize.w, h := map_info_json.mapsize.h }
    scavs := map_info_json.scavenger.units + map_info_json.scavenger.structures
    oilWells := map_info_json.oilWells
    player := {
      units := { eq := se.units, min := pc.units.min, max := pc.units.max }
      structs := { eq := se.structures, min := pc.structures.min, max := pc.structures.max }
      resourceExtr := { eq := se.resourceExtractors, min := pc.resourceExtractors.min, max := pc.resourceExtractors.max }
      pwrGen := { eq := se.powerGenerators, min := pc.powerGenerators.min, max := pc.powerGenerators.max }
      regFact := { eq := se.regFactories, min := pc.regFactories.min, max := pc.regFactories.max }
      vtolFact := { eq := se.vtolFactories, min := pc.vtolFactories.min, max := pc.vtolFactories.max }
      cyborgFact := { eq := se.cyborgFactories, min := pc.cyborgFactories.min, max := pc.cyborgFactories.max }
      researchCent := { eq := se.researchCenters, min := pc.researchCenters.min, max := pc.researchCenters.max }
      defStruct := { eq := se.defenseStructures, min := pc.defenseStructures.min, max := pc.defenseStructures.max } }
    hq := hqList
    mod := if map_info_json.mapMod then some map_info_json.mapMod else none
    download_type := map_info_json.mapFormat }

/-! ## Database Indexer (update_map_db.py) -/

/-- The default page capacity (DEFAULT_MAX_MAPS_PER_INDEX_FILE). -/
def DEFAULT_MAX_MAPS_PER_INDEX_FILE : Nat := 3000

/-- An index page on disk. Records are opaque and modelled by `Nat` ids; links
are modelled by the page number they point to (the source stores the
corresponding URL path, which is a function of that page number); `version` is
the write-time timestamp, modelled as an abstract `Nat` stamp. -/
structure IndexPage where
  version : Nat
  prev : Option Nat
  next : Option Nat
  maps : List Nat
  deriving DecidableEq, Repr

/-- update_map_db.py lines 292-303, `initialize_new_index_page`: fresh page
with the current timestamp, a `prev` link when `pagenum > 1`, and no maps. -/
def initialize_new_index_page (pagenum : Nat) (now : Nat) : IndexPage :=
  { version := now
    prev := if pagenum > 1 then some (pagenum - 1) else none
    next := none
    maps := [] }

/-- update_map_db.py lines 261-267, `get_current_index_page`: the
highest-numbered existing page, or page 1 when no page exists yet. The index
is modelled as the list of its pages in page order (page `n` is element
`n - 1`), so the current page number is the page count, or 1 when empty. -/
def get_current_index_pagenum (pages : List IndexPage) : Nat :=
  if pages.isEmpty then 1 else pages.length

/-- The versions manifest (the object written to v1/versions.json). -/
structure VersionsManifest where
  typ : String
  id : String
  versions : List (Nat × Nat)
  deriving DecidableEq, Repr

/-- update_map_db.py lines 269-290, `update_mapdatabase_versions_file`: read
every index page in page order and record its self-link (modelled by the page
number) and `version` stamp. -/
def update_mapdatabase_versions_file (pages : List IndexPage) : VersionsManifest :=
  { typ := "wz2100.mapdatabase.versions.v1"
    id := "versions"
    versions := pages.enum.map (fun p => (p.1 + 1, p.2.version)) }

/-- The body of the `while new_maps_start < len(new_maps)` loop of
`add_to_mapdatabase_index` (lines 310-339), one iteration per recursive call:
load the page at `pagenum` (or initialize it if it does not exist yet), append
the next chunk of at most `cap` new records to its `maps` array — the source
computes `num_maps_in_page` at line 320 but never uses it, so the chunk size
ignores how many records the page already holds — stamp its `version`, set a
`next` link when records remain, write the page back, and advance. The `fuel`
argument bounds the recursion and is initialized to the number of new records,
which is an upper bound on the iteration count whenever `cap ≥ 1` (for
`cap = 0` the Python loop would not terminate). -/
def addIndexLoop (fuel : Nat) (remaining : List Nat) (pages : List IndexPage)
    (pagenum cap now : Nat) : List IndexPage :=
  match fuel, remaining with
  | _, [] => pages
  | 0, _ => pages
  | fuel + 1, r :: rs =>
    let remaining := r :: rs
    let curr :=
      if pagenum - 1 < pages.length then pages.getD (pagenum - 1) (initialize_new_index_page pagenum now)
      else initialize_new_index_page pagenum now
    let chunk := remaining.take cap
    let rest := remaining.drop cap
    let curr := { curr with
      maps := curr.maps ++ chunk
      version := now
      next := if rest.isEmpty then curr.next else some (pagenum + 1) }
    let pages := if pagenum - 1 < pages.length then pages.set (pagenum - 1) curr else pages ++ [curr]
    addIndexLoop fuel rest pages (pagenum + 1) cap now

/-- update_map_db.py lines 305-342, `add_to_mapdatabase_index`: run the append
loop starting at the current (highest-numbered) page, then regenerate the
versions manifest from the resulting pages. Returns the written pages and the
written versions manifest. -/
def add_to_mapdatabase_index (new_maps : List Nat) (pages : List IndexPage)
    (cap now : Nat) : List IndexPage × VersionsManifest :=
  let pages := addIndexLoop new_maps.length new_maps pages (get_current_index_pagenum pages) cap now
  (pages, update_mapdatabase_versions_file pages)

/-! ## Release Builder (process_map_repo.py) -/

/-- process_map_repo.py lines 37-44, `map_has_hash_collision`: hash the archive
and return `{'result': ..., 'hash': ...}`. The lookup against the set of
already-produced hashes is a TODO in the source (line 43) and is not
implemented: `result` is the literal `False`, whatever the archive hash and
whatever has been produced so far (the function is not even given access to
previously produced hashes). Archive content hashes are modelled as `Nat`. -/
structure HashCollisionCheck where
  result : Bool
  hash : Nat
  deriving DecidableEq, Repr

def map_has_hash_collision (archive_hash : Nat) : HashCollisionCheck :=
  { result := false, hash := archive_hash }

/-- The `while hash_collision_result['result']` repackaging loop of
process_map_repo.py lines 137-145: while the collision check reports a
collision, repackage with a fresh random salt (modelled by `resalt`, mapping
the current archive hash to the hash of the repackaged archive) and re-check.
`fuel` bounds the iterations (the source loop is unbounded). -/
def collision_avoidance_loop : Nat → (Nat → Nat) → Nat → Nat
  | 0, _, h => h
  | fuel + 1, resalt, h =>
    if (map_has_hash_collision h).result then collision_avoidance_loop fuel resalt (resalt h)
    else h

/-- The archive hashes produced by one run of the release builder, given the
unsalted packaging hash of each processed map (lines 136-145 for each map):
package, then run the collision-avoidance loop. -/
def run_archive_hashes (initial_hashes : List Nat) (resalt : Nat → Nat) (fuel : Nat) : List Nat :=
  initial_hashes.map (fun h => collision_avoidance_loop fuel resalt h)

/-- Per-tag accumulation entry of `releasesGeneratedThisRun` (process_map_repo.py
lines 59-62): the commits included so far and the asset count. Release tags
`v<major>` are modelled by their major number. -/
structure ReleaseInfo where
  commits : List Nat
  assets : Nat
  deriving DecidableEq, Repr

/-- State threaded through the commit loop of `generate_releases_for_maprepo`:
the current release tag, the `releasesGeneratedThisRun` dict (as an association
list), and `releaseList`. -/
structure RelGenState where
  currentTag : Nat
  generated : List (Nat × ReleaseInfo)
  releaseList : List Nat
  deriving DecidableEq, Repr

/-- Dict lookup `releasesGeneratedThisRun[tag]['assets']` (the key always
exists when the source reads it; a missing key is read as an empty entry). -/
def getAssets (generated : List (Nat × ReleaseInfo)) (tag : Nat) : Nat :=
  match generated.lookup tag with
  | some info => info.assets
  | none => 0

/-- Update the entry of `tag` in the dict. -/
def updateGenerated (generated : List (Nat × ReleaseInfo)) (tag : Nat)
    (f : ReleaseInfo → ReleaseInfo) : List (Nat × ReleaseInfo) :=
  generated.map (fun kv => if kv.1 = tag then (kv.1, f kv.2) else kv)

/-- process_map_repo.py lines 50-64, `generate_next_release_details`: increment
the major version of the current tag and register a fresh empty entry for it. -/
def generate_next_release_details (currentTag : Nat) (generated : List (Nat × ReleaseInfo)) :
    Nat × List (Nat × ReleaseInfo) :=
  (currentTag + 1, generated ++ [(currentTag + 1, { commits := [], assets := 0 })])

/-- One iteration of the `for commit in commits` loop of
`generate_releases_for_maprepo` (lines 82-158). A commit is modelled as its id
together with the list of its changed map folders, each flagged with whether
that map survives info extraction and validation (only surviving maps become
assets; the batching condition at line 95 counts all changed folders):
  * no changed map folders: the commit is skipped;
  * line 95: when the current release already has at least one asset and the
    changed-folder count plus the current asset count exceeds the cap, the
    current release is appended to `releaseList` (if not yet present) and a
    new release tag is started before this commit is processed;
  * the commit id is recorded, each surviving map increments the asset count;
  * lines 157-158: after the commit, the current release is appended to
    `releaseList` if it has assets and is not yet listed. -/
def process_commit (max_assets_per_release : Nat) (s : RelGenState)
    (commit : Nat × List Bool) : RelGenState :=
  let changedFolders := commit.2
  if changedFolders.isEmpty then s
  else
    let assets := getAssets s.generated s.currentTag
    let (tag, generated, releaseList) :=
      if assets > 0 ∧ changedFolders.length + assets > max_assets_per_release then
        let rl := if s.currentTag ∈ s.releaseList then s.releaseList else s.releaseList ++ [s.currentTag]
        let tg := generate_next_release_details s.currentTag s.generated
        (tg.1, tg.2, rl)
      else
        (s.currentTag, s.generated, s.releaseList)
    let generated := updateGenerated generated tag
      (fun r => { r with commits := r.commits ++ [commit.1] })
    let new_assets := (changedFolders.filter (fun b => b)).length
    let generated := updateGenerated generated tag
      (fun r => { r with assets := r.assets + new_assets })
    let releaseList :=
      if getAssets generated tag > 0 ∧ tag ∉ releaseList then releaseList ++ [tag]
      else releaseList
    { currentTag := tag, generated := generated, releaseList := releaseList }

/-- process_map_repo.py lines 72-160, `generate_releases_for_maprepo`
(batching skeleton): start a fresh release with the major version after
`last_release_version` and fold the commit loop over the commit list in
history order. Returns the final accumulation state (the source returns its
`releaseList` component). -/
def generate_releases_for_maprepo (commits : List (Nat × List Bool))
    (last_release_version : Nat) (max_assets_per_release : Nat := 100) : RelGenState :=
  let init := generate_next_release_details last_release_version []
  commits.foldl (process_commit max_assets_per_release)
    { currentTag := init.1, generated := init.2, releaseList := [] }

/-! ## Map-list validation exit code (validate_new_map.py) -/

/-- Outcome of one entry of the map list in `validate_repo_map_list`
(lines 306-312): the path does not exist (silently skipped), `validate_map`
raises FailedToProcessMapError (collected into `maps_failed_processing`), or
the map is validated with `passed_validation()` as recorded. -/
inductive MapListOutcome where
  | nonexistent
  | unprocessable
  | validated (passed : Bool)
  deriving DecidableEq, Repr

/-- The `passed_validation()` flags of the maps that made it into
`validation_details`. -/
def validatedResults (outcomes : List MapListOutcome) : List Bool :=
  outcomes.filterMap (fun o =>
    match o with
    | .validated passed => some passed
    | _ => none)

/-- The number of entries collected into `maps_failed_processing`. -/
def numFailedProcessing (outcomes : List MapListOutcome) : Nat :=
  (outcomes.filter (fun o => o = .unprocessable)).length

/-- validate_new_map.py lines 252-264: the return value computed by
`print_multi_map_validation_details` (0 exactly when no validated map failed,
at least one map was validated, and no map failed processing). -/
def print_multi_map_validation_details_ret (outcomes : List MapListOutcome) : Nat :=
  let validated := validatedResults outcomes
  if (validated.filter (fun p => !p)).length = 0 ∧ validated.length > 0 ∧
      numFailedProcessing outcomes = 0 then 0
  else 1

/-- validate_new_map.py lines 302-316, `validate_repo_map_list`: the value
returned to the CLI as the process exit code. The return value of
`print_multi_map_validation_details` is discarded (line 314); the function
returns the number of failing maps among those successfully validated, or 1
when nothing was validated — entries in `maps_failed_processing` are not
consulted. -/
def validate_repo_map_list (outcomes : List MapListOutcome) : Nat :=
  let validation_details := validatedResults outcomes
  let num_failing_maps := (validation_details.filter (fun p => !p)).length
  if validation_details.length > 0 then num_failing_maps else 1

/-! ## Concrete inputs used by the claim theorems -/

/-- A per-player counter 1..1. -/
def oneCount : CountRange := { min := 1, max := 1 }

/-- Player counters with one of every structure type. -/
def basePlayerCounts : PlayerCounts :=
  { units := oneCount, structures := oneCount, resourceExtractors := oneCount,
    powerGenerators := oneCount, regFactories := oneCount, vtolFactories := oneCount,
    cyborgFactories := oneCount, researchCenters := oneCount, defenseStructures := oneCount }

/-- All equality flags set. -/
def baseStartEquality : StartEquality :=
  { units := true, structures := true, resourceExtractors := true,
    powerGenerators := true, regFactories := true, vtolFactories := true,
    cyborgFactories := true, researchCenters := true, defenseStructures := true }

/-- Two fully specified HQ slots. -/
def baseHQ : List HQEntry :=
  [{ x := some 1, y := some 1 }, { x := some 2, y := some 2 }]

/-- A MapInfo satisfying every §4.1 publication rule except that its `name`
value is the empty string. -/
def mapInfoEmptyName : MapInfo :=
  { name := some ""
    type := "skirmish"
    players := 2
    tileset := "arizona"
    license := some "CC0-1.0"
    author := some { name := some "Alice" }
    additionalAuthors := none
    created := some "2020-05-17"
    mapsize := { w := 64, h := 64 }
    oilWells := 8
    player := basePlayerCounts
    hq := some baseHQ
    mapMod := false
    modTypes := none
    levelFormat := "json"
    mapFormat := "jsonv2"
    flatMapPackage := true
    scavenger := { units := 0, structures := 0 }
    balance_startEquality := baseStartEquality }

/-- The day number of 2026-10-12, a fixed evaluation date for the `created`
checks (any date at or after the `created` dates of the concrete inputs and
before year 2999 gives the same results). -/
def nowDay2026 : Nat := daysFromCivil 2026 10 12

example : (validate_map_info mapInfoEmptyName nowDay2026).map MapInfoValidationResult.errors
    = .ok [] := by rfl

/-- A valid-name variant of `mapInfoEmptyName` (satisfies every §4.1 rule). -/
def mapInfoValid : MapInfo := { mapInfoEmptyName with name := some "Valid-Map-Name" }

/-- `mapInfoValid` with a `created` date more than one day in the future. -/
def mapInfoFutureCreated : MapInfo := { mapInfoValid with created := some "2999-01-01" }

/-- `mapInfoValid` with a `created` date before 1999. -/
def mapInfoOldCreated : MapInfo := { mapInfoValid with created := some "1998-06-15" }

/-- `mapInfoValid` with primary author "A" and additionalAuthors ["A","B","B"]
(the example of §8 of the spec). -/
def mapInfoAuthorsA : MapInfo :=
  { mapInfoValid with
    author := some { name := some "A" }
    additionalAuthors := some [{ name := some "A" }, { name := some "B" }, { name := some "B" }] }

/-- `mapInfoValid` with primary author "AB" and additionalAuthors ["AB"]. -/
def mapInfoAuthorsAB : MapInfo :=
  { mapInfoValid with
    author := some { name := some "AB" }
    additionalAuthors := some [{ name := some "AB" }] }

/-- `mapInfoValid` with the `hq` key absent. -/
def mapInfoMissingHq : MapInfo := { mapInfoValid with hq := none }

/-- `mapInfoValid` with three player slots but only two `hq` entries. -/
def mapInfoShortHq : MapInfo := { mapInfoValid with players := 3 }

/-- Every warning option disabled. -/
def allWarningsOff : ValidateMapWarningOptions :=
  { short_name_warning := false, missing_created_date_warning := false,
    zero_oil_warning := false, player_structure_zero_warnings := false,
    mods_texture_overrides_warning := false, mods_auto_strip_warning := false,
    mods_no_modtypes_warning := false, format_warnings := false }

/-! ## Shared lemmas -/

/-- The HQ warning loop collects exactly the warnings of the indices whose
slot lacks coordinates, in index order. -/
theorem hqWarningsLoop_eq_filterMap (l : List HQEntry) (is : List Nat) :
    hqWarningsLoop l is =
      is.filterMap (fun i => if hqSlotLacksCoords l i then some (hqWarnString i) else none) := by
  induction is with
  | nil => rfl
  | cons i is ih =>
    simp only [hqWarningsLoop, List.filterMap_cons, ih]
    by_cases h : hqSlotLacksCoords l i
    · simp [h]
    · simp [h]

/-! ## Claim theorems -/

/-- C1: the claim says validation must report a non-empty `errors` list for a
MapInfo with an empty (or missing) `name`. The code does not: an empty string
is falsy, so `validate_map_info` skips every name check and — with all other
rules satisfied — returns an empty `errors` list, and a missing `name` key
raises a KeyError rather than producing an error finding. -/
theorem C1_empty_name_validates_with_no_errors :
    mapInfoEmptyName.name = some "" ∧
    (validate_map_info mapInfoEmptyName nowDay2026).map MapInfoValidationResult.errors
      = .ok [] ∧
    validate_map_info { mapInfoEmptyName with name := none } nowDay2026
      = .error PyErr.keyError :=
  ⟨rfl, rfl, rfl⟩

/-- C2: the spec example works — primary author "A" with additionalAuthors
["A","B","B"] yields ["A","B"] — but deduplication against the primary author
is broken in general: `set(primary_name)` is the set of the name's characters,
so primary author "AB" with additionalAuthors ["AB"] yields ["AB","AB"],
which repeats the primary author. -/
theorem C2_author_dedup_broken :
    (convert_map_info_json_to_map_database_json mapInfoAuthorsA).map MapDatabaseRecord.author
      = .ok (some (AuthorField.list ["A", "B"])) ∧
    (convert_map_info_json_to_map_database_json mapInfoAuthorsAB).map MapDatabaseRecord.author
      = .ok (some (AuthorField.list ["AB", "AB"])) :=
  ⟨rfl, rfl⟩

/-- C3: the claim says every index page holds at most `max_maps_per_index_file`
records after an append. The append loop ignores how many records the current
page already holds (`num_maps_in_page` is computed and never used), so
appending 2 records with capacity 2 to an index whose current page already
holds 1 record yields a single page with 3 > 2 records. -/
theorem C3_page_overfill :
    (add_to_mapdatabase_index [1, 2] [{ version := 0, prev := none, next := none, maps := [9] }] 2 5).1
      = [{ version := 5, prev := none, next := none, maps := [9, 1, 2] }] ∧
    ¬ (∀ p ∈ (add_to_mapdatabase_index [1, 2]
          [{ version := 0, prev := none, next := none, maps := [9] }] 2 5).1,
        p.maps.length ≤ 2) :=
  ⟨rfl, by decide⟩

/-- C4: the claim says a well-formed `created` date in the far future or
before 1999 yields a finding in `errors` with a normal return. Instead both
branches call `errors.append` with two arguments (lines 130/132), raising a
TypeError out of `validate_map_info`. -/
theorem C4_created_findings_raise_TypeError :
    validate_map_info mapInfoFutureCreated nowDay2026 = .error PyErr.typeError ∧
    validate_map_info mapInfoOldCreated nowDay2026 = .error PyErr.typeError :=
  ⟨rfl, rfl⟩

/-- C5: the claim says hash collisions within a run are detected and removed
by salted repackaging. `map_has_hash_collision` never reports a collision (the
lookup is an unimplemented TODO and the function is not even given the
previously produced hashes), so the repackaging loop never runs and a run that
packages two archives with the same content hash keeps the duplicate. -/
theorem C5_collision_never_detected :
    (∀ h : Nat, (map_has_hash_collision h).result = false) ∧
    run_archive_hashes [42, 42] (fun h => h + 1) 1000 = [42, 42] ∧
    ¬ (run_archive_hashes [42, 42] (fun h => h + 1) 1000).Nodup :=
  ⟨fun _ => rfl, rfl, by decide⟩

/-- C9: the claim says the map-list exit code is 0 exactly when at least one
map was validated and everything passed, with unprocessable maps counting as
failures. `validate_repo_map_list` ignores `maps_failed_processing` in its
return value (and discards the status computed by the reporter), so a list
with one passing map and one unprocessable map exits 0 even though the report
it prints says Overall Validation: FAILED. The empty list does return 1. -/
theorem C9_exit_code_ignores_unprocessable :
    validate_repo_map_list [MapListOutcome.validated true, MapListOutcome.unprocessable] = 0 ∧
    print_multi_map_validation_details_ret
      [MapListOutcome.validated true, MapListOutcome.unprocessable] = 1 ∧
    validate_repo_map_list [] = 1 :=
  ⟨rfl, rfl, rfl⟩

/-- C10: appending an empty record list to the index leaves every page (and
its version stamp) untouched, and the regenerated versions manifest is exactly
the manifest of the unchanged pages. -/
theorem C10_add_empty_is_noop :
    ∀ (pages : List IndexPage) (cap now : Nat),
      (add_to_mapdatabase_index [] pages cap now).1 = pages ∧
      (add_to_mapdatabase_index [] pages cap now).2 = update_mapdatabase_versions_file pages :=
  fun _ _ _ => ⟨rfl, rfl⟩

set_option maxRecDepth 20000 in
/-- C6: the release builder seals the current release and starts the next
major-version tag before a commit exactly when the commit changes at least one
map folder, the current release already has at least one asset, and the
commit's changed-map count would push the asset count over the cap; with the
default cap of 100, a single commit of 150 maps yields exactly one release
(tag v1) holding all 150 assets, and a following commit with any new map
starts tag v2. -/
theorem C6_release_batching :
    (∀ (cap : Nat) (s : RelGenState) (c : Nat × List Bool),
        (process_commit cap s c).currentTag ≠ s.currentTag ↔
          (¬ c.2.isEmpty ∧ getAssets s.generated s.currentTag > 0 ∧
            c.2.length + getAssets s.generated s.currentTag > cap)) ∧
    (generate_releases_for_maprepo [(0, List.replicate 150 true)] 0 100).releaseList = [1] ∧
    getAssets (generate_releases_for_maprepo [(0, List.replicate 150 true)] 0 100).generated 1
      = 150 ∧
    (generate_releases_for_maprepo [(0, List.replicate 150 true), (1, [true])] 0 100).releaseList
      = [1, 2] ∧
    getAssets
      (generate_releases_for_maprepo [(0, List.replicate 150 true), (1, [true])] 0 100).generated 1
      = 150 ∧
    getAssets
      (generate_releases_for_maprepo [(0, List.replicate 150 true), (1, [true])] 0 100).generated 2
      = 1 := by
  refine ⟨?_, by rfl, by rfl, by rfl, by rfl, by rfl⟩
  intro cap s c
  by_cases h1 : c.2.isEmpty
  · simp [process_commit, h1]
  · by_cases h2 : getAssets s.generated s.currentTag > 0 ∧
        c.2.length + getAssets s.generated s.currentTag > cap
    · simp [process_commit, h1, h2, generate_next_release_details]
    · simp [process_commit, h1, h2]

/-- C7: whenever the input matches DATE_FORMAT_RE the converter returns the
matched year, month and day groups joined by dashes (for
"2020-05-17 10:00:00" that is "2020-05-17" — the trailing time is dropped even
though "10:00:00" does not itself match the optional time group, because the
pattern is not end-anchored), and it raises ValueError exactly on inputs that
do not match the pattern. -/
theorem C7_date_conversion :
    (∀ (s : String) (y m d : List Char), dateFormatMatch s.toList = some (y, m, d) →
        convert_map_info_date_to_yyyy_mm_dd s = .ok (⟨y⟩ ++ "-" ++ ⟨m⟩ ++ "-" ++ ⟨d⟩)) ∧
    (∀ s : String, convert_map_info_date_to_yyyy_mm_dd s = .error PyErr.valueError ↔
        dateFormatMatch s.toList = none) ∧
    convert_map_info_date_to_yyyy_mm_dd "2020-05-17 10:00:00" = .ok "2020-05-17" := by
  refine ⟨?_, ?_, rfl⟩
  · intro s y m d h
    have h' : dateFormatMatch s.data = some (y, m, d) := h
    simp [convert_map_info_date_to_yyyy_mm_dd, h']
  · intro s
    constructor
    · intro h
      cases hm : dateFormatMatch s.toList with
      | none => rfl
      | some r =>
        obtain ⟨y, m, d⟩ := r
        have hm' : dateFormatMatch s.data = some (y, m, d) := hm
        simp [convert_map_info_date_to_yyyy_mm_dd, hm'] at h
    · intro h
      have h' : dateFormatMatch s.data = none := h
      simp [convert_map_info_date_to_yyyy_mm_dd, h']

/-- C7 witness: the theorem applied to the concrete input of the spec
example. -/
theorem C7_date_conversion_witness :
    dateFormatMatch "2020-05-17 10:00:00".toList
      = some ("2020".toList, "05".toList, "17".toList) ∧
    convert_map_info_date_to_yyyy_mm_dd "2020-05-17 10:00:00" = .ok "2020-05-17" :=
  ⟨rfl, C7_date_conversion.1 "2020-05-17 10:00:00" "2020".toList "05".toList "17".toList rfl⟩

/-- C8 counterexample: the claim as stated fails twice on the code. A MapInfo
with two players and no `hq` key makes `validate_map_info` raise a KeyError
(it is not tolerated), and the HQ warning is emitted even with every warning
option disabled (it is not suppressible). -/
theorem C8_counterexample :
    validate_map_info mapInfoMissingHq nowDay2026 = .error PyErr.keyError ∧
    (validate_map_info mapInfoShortHq nowDay2026 true allWarningsOff).map
        MapInfoValidationResult.warnings = .ok [hqWarnString 2] :=
  ⟨rfl, rfl⟩

/-- C8 amended: when the `hq` key is present, the HQ-coverage check warns for
exactly the player indices in `range(2, players)` — hence never for slots 0
and 1 — whose slot lacks `x`/`y` coordinates, tolerating arrays that are too
short (an out-of-range index warns rather than raising); the warnings are not
conditioned on any warning option (the concrete conjunct emits the warning
with every option disabled); a MapInfo without the `hq` key raises KeyError. -/
theorem C8_hq_coverage_amended :
    (∀ (players : Int) (l : List HQEntry),
        hq_coverage_check players (some l) =
          .ok ((pyRangeFrom2 players).filterMap
            (fun i => if hqSlotLacksCoords l i then some (hqWarnString i) else none))) ∧
    (∀ (players : Int) (i : Nat), i ∈ pyRangeFrom2 players ↔ 2 ≤ i ∧ (i : Int) < players) ∧
    (∀ players : Int, hq_coverage_check players none = .error PyErr.keyError) ∧
    (validate_map_info mapInfoShortHq nowDay2026 true allWarningsOff).map
        MapInfoValidationResult.warnings = .ok [hqWarnString 2] := by
  refine ⟨?_, ?_, fun _ => rfl, rfl⟩
  · intro players l
    simp [hq_coverage_check, hqWarningsLoop_eq_filterMap]
  · intro players i
    rw [pyRangeFrom2, List.mem_range'_1]
    constructor
    · rintro ⟨h2, hlt⟩
      refine ⟨h2, ?_⟩
      rw [← Int.lt_toNat]
      omega
    · rintro ⟨h2, hlt⟩
      refine ⟨h2, ?_⟩
      rw [← Int.lt_toNat] at hlt
      omega
